import Mathlib

/-!
Verification of the av4-fc flight-controller sources.

The I2C bus (the external `I2CDevice` trait: `write(&[u8])`, `read(&mut [u8])`,
both returning `Result<(), Error>`) is modelled as a script of responses, one
per bus operation, exactly as the mock device in the tests of src/io.rs does:
a write response carries its result, a read response carries the bytes the
device places in the buffer of the caller together with its result.  The bus
state also records the trace of operations the code issued, so that claims of
the form "issues exactly one write of [reg] followed by exactly one read" are
the statement that the trace grows by exactly those two events and the rest of
the script is untouched.  Bytes are Nat (reduced mod 256 where a value is
interpreted); `f32` arithmetic is modelled by exact rationals, and every
numeric value the claims mention (4096/16384, 0/340+35, 0/131) is exactly
representable in `f32`, so the rational model agrees with the code there.
-/

instance {E A : Type} [DecidableEq E] [DecidableEq A] : DecidableEq (Except E A) := fun x y =>
  match x, y with
  | Except.error a, Except.error b =>
      if h : a = b then Decidable.isTrue (by rw [h])
      else Decidable.isFalse (by intro hc; cases hc; exact h rfl)
  | Except.error _, Except.ok _ => Decidable.isFalse (by intro hc; cases hc)
  | Except.ok _, Except.error _ => Decidable.isFalse (by intro hc; cases hc)
  | Except.ok a, Except.ok b =>
      if h : a = b then Decidable.isTrue (by rw [h])
      else Decidable.isFalse (by intro hc; cases hc; exact h rfl)

/-- One scripted response of the bus: how the device answers the next
write or the next read.  A read response also carries the bytes copied
into the buffer of the caller (the mock device copies them even when the
result is an error). -/
inductive BusResp (E : Type) where
  | write (result : Except E Unit)
  | read (data : List Nat) (result : Except E Unit)
deriving DecidableEq

/-- One bus operation as observed on the wire: a write of given bytes, or
a read of a given length. -/
inductive BusEvent where
  | write (data : List Nat)
  | read (len : Nat)
deriving DecidableEq

/-- Bus state: the remaining scripted responses and the trace of
operations issued so far. -/
structure Bus (E : Type) where
  script : List (BusResp E)
  trace : List BusEvent
deriving DecidableEq

/-- `bus.write(data)`: consume the next scripted response, which must be a
write response (`none` models the mock device aborting on an unexpected
operation), record the event, return the scripted result. -/
def Bus.doWrite {E : Type} (bus : Bus E) (data : List Nat) :
    Option (Except E Unit × Bus E) :=
  match bus.script with
  | BusResp.write r :: rest =>
      some (r, ⟨rest, bus.trace ++ [BusEvent.write data]⟩)
  | _ => none

/-- `bus.read(buf)`: consume the next scripted response, which must be a
read response whose data has the length of `buf` (the mock device asserts
exactly this), record the event, overwrite the buffer with the data, return
the scripted result. -/
def Bus.doRead {E : Type} (bus : Bus E) (buf : List Nat) :
    Option (Except E Unit × List Nat × Bus E) :=
  match bus.script with
  | BusResp.read data r :: rest =>
      if data.length = buf.length then
        some (r, data, ⟨rest, bus.trace ++ [BusEvent.read buf.length]⟩)
      else none
  | _ => none

/-- src/io.rs `read_reg`: `try!(bus.write(&[reg])); bus.read(buf)`.
Returns the result, the buffer contents afterwards, and the bus state
afterwards. -/
def read_reg {E : Type} (bus : Bus E) (reg : Nat) (buf : List Nat) :
    Option (Except E Unit × List Nat × Bus E) :=
  match bus.doWrite [reg] with
  | none => none
  | some (Except.error e, bus1) => some (Except.error e, buf, bus1)
  | some (Except.ok _, bus1) => bus1.doRead buf

/-- Claim C1: when both the bus write and the bus read succeed, `read_reg`
issues exactly one write of the one-byte message `[reg]` followed by exactly
one read filling `buf`, returns `Ok`, and the buffer afterwards holds exactly
the bytes the read produced. -/
theorem read_reg_success {E : Type} (reg : Nat) (buf data : List Nat)
    (rest : List (BusResp E)) (t : List BusEvent)
    (hlen : data.length = buf.length) :
    read_reg ⟨BusResp.write (Except.ok ()) :: BusResp.read data (Except.ok ()) :: rest, t⟩
        reg buf =
      some (Except.ok (), data,
        ⟨rest, t ++ [BusEvent.write [reg], BusEvent.read buf.length]⟩) := by
  simp [read_reg, Bus.doWrite, Bus.doRead, hlen]

/-- Witness for C1 at a concrete register, buffer and bus script. -/
theorem read_reg_success_witness :
    ([10, 20, 30] : List Nat).length = ([0, 0, 0] : List Nat).length ∧
    read_reg (E := Unit)
        ⟨[BusResp.write (Except.ok ()), BusResp.read [10, 20, 30] (Except.ok ())], []⟩
        5 [0, 0, 0] =
      some (Except.ok (), [10, 20, 30],
        ⟨[], [BusEvent.write [5], BusEvent.read 3]⟩) :=
  ⟨by decide, read_reg_success 5 [0, 0, 0] [10, 20, 30] [] [] (by decide)⟩

/-- Claim C2: if the write step of `read_reg` fails with error `e`, the read
is never attempted (the trace gains only the write event and the remaining
script is untouched) and `read_reg` returns `Err(e)` unchanged; if the write
succeeds and the read fails with error `e2`, `read_reg` returns `Err(e2)`. -/
theorem read_reg_error {E : Type} (reg : Nat) (buf data : List Nat) (e e2 : E)
    (rest rest2 : List (BusResp E)) (t : List BusEvent)
    (hlen : data.length = buf.length) :
    read_reg ⟨BusResp.write (Except.error e) :: rest, t⟩ reg buf =
      some (Except.error e, buf, ⟨rest, t ++ [BusEvent.write [reg]]⟩) ∧
    read_reg ⟨BusResp.write (Except.ok ()) :: BusResp.read data (Except.error e2) :: rest2, t⟩
        reg buf =
      some (Except.error e2, data,
        ⟨rest2, t ++ [BusEvent.write [reg], BusEvent.read buf.length]⟩) := by
  constructor
  · simp [read_reg, Bus.doWrite]
  · simp [read_reg, Bus.doWrite, Bus.doRead, hlen]

/-- Witness for C2 at a concrete register, buffer and bus scripts. -/
theorem read_reg_error_witness :
    ([7, 8] : List Nat).length = ([0, 0] : List Nat).length ∧
    (read_reg (E := Bool) ⟨[BusResp.write (Except.error true)], []⟩ 9 [0, 0] =
      some (Except.error true, [0, 0], ⟨[], [BusEvent.write [9]]⟩) ∧
    read_reg (E := Bool)
        ⟨[BusResp.write (Except.ok ()), BusResp.read [7, 8] (Except.error false)], []⟩
        9 [0, 0] =
      some (Except.error false, [7, 8],
        ⟨[], [BusEvent.write [9], BusEvent.read 2]⟩)) :=
  ⟨by decide, read_reg_error 9 [0, 0] [7, 8] true false [] [] [] (by decide)⟩

/-- The error type of the flight controller.  In the source the bus error
type `I::Error` absorbs I/O errors through a `From<std::io::Error>` bound;
we model its image freely: a transport error of the bus, the NotFound error
built for a WhoAmI mismatch, and the end-of-file error a short `Cursor`
read would raise while decoding. -/
inductive FCError (E : Type) where
  | transport (e : E)
  | identityMismatch
  | decodeEof
deriving DecidableEq

/-- src/fc.rs `FlightController`: owns the bus. -/
structure FlightController (E : Type) where
  bus : Bus E
deriving DecidableEq

/-- src/fc.rs `FlightController::new`: read the WhoAmI register 0x75 into a
one-byte buffer, fail with the identity-mismatch error unless it is 0x68,
then write `[0x6b, 0x00]` (wake up, internal oscillator) and
`[0x19, 199, 0x06, 0x00, 0x00]` (sample-rate divider, low-pass filter,
gyro range, accel range).  Returns the result together with the bus state
afterwards, so the trace stays observable on error paths. -/
def FlightController.new {E : Type} (bus : Bus E) :
    Option (Except (FCError E) (FlightController E) × Bus E) :=
  match read_reg bus 0x75 [0] with
  | none => none
  | some (Except.error e, _, bus1) => some (Except.error (FCError.transport e), bus1)
  | some (Except.ok _, buf, bus1) =>
    if buf.headD 0 ≠ 0x68 then
      some (Except.error FCError.identityMismatch, bus1)
    else
      match bus1.doWrite [0x6b, 0x00] with
      | none => none
      | some (Except.error e, bus2) => some (Except.error (FCError.transport e), bus2)
      | some (Except.ok _, bus2) =>
        match bus2.doWrite [0x19, 199, 0x06, 0x00, 0x00] with
        | none => none
        | some (Except.error e, bus3) => some (Except.error (FCError.transport e), bus3)
        | some (Except.ok _, bus3) => some (Except.ok ⟨bus3⟩, bus3)

/-- src/fc.rs `MPUSample`, with `f32` modelled by exact rationals:
acceleration X/Y/Z in g, temperature in degrees Celsius, rotational
velocity X/Y/Z in degrees per second. -/
structure MPUSample where
  accel : List ℚ
  temp : ℚ
  gyro : List ℚ
deriving DecidableEq

/-- The signed 16-bit value of two bytes in big-endian order, as
`byteorder::BigEndian` reads it. -/
def toI16 (hi lo : Nat) : Int :=
  let v : Nat := (hi % 256) * 256 + lo % 256
  if v < 32768 then (v : Int) else (v : Int) - 65536

/-- `Cursor::read_i16::<BigEndian>`: take two bytes from the front, or fail
at end of input. -/
def readI16BE (l : List Nat) : Option (Int × List Nat) :=
  match l with
  | hi :: lo :: rest => some (toI16 hi lo, rest)
  | _ => none

/-- The decode phase of `read_sample`: seven big-endian i16 reads from the
buffer, in the order accel X, accel Y, accel Z, temperature, gyro X, gyro Y,
gyro Z, with the conversions of src/fc.rs. -/
def decodeMPU (buf : List Nat) : Option MPUSample := do
  let (ax, b1) ← readI16BE buf
  let (ay, b2) ← readI16BE b1
  let (az, b3) ← readI16BE b2
  let (tp, b4) ← readI16BE b3
  let (gx, b5) ← readI16BE b4
  let (gy, b6) ← readI16BE b5
  let (gz, _) ← readI16BE b6
  pure
    { accel := [(ax : ℚ) / 16384, (ay : ℚ) / 16384, (az : ℚ) / 16384],
      temp := (tp : ℚ) / 340 + 35,
      gyro := [(gx : ℚ) / 131, (gy : ℚ) / 131, (gz : ℚ) / 131] }

/-- src/fc.rs `FlightController::read_sample`: one `read_reg` block read of
a 14-byte buffer starting at register 0x3b, then the cursor decode; a cursor
error is converted into the controller error type like any I/O error. -/
def FlightController.read_sample {E : Type} (self : FlightController E) :
    Option (Except (FCError E) MPUSample × FlightController E) :=
  match read_reg self.bus 0x3b (List.replicate 14 0) with
  | none => none
  | some (Except.error e, _, bus1) => some (Except.error (FCError.transport e), ⟨bus1⟩)
  | some (Except.ok _, buf, bus1) =>
    match decodeMPU buf with
    | none => some (Except.error FCError.decodeEof, ⟨bus1⟩)
    | some s => some (Except.ok s, ⟨bus1⟩)

/-- Claim C3: when the identity-register read succeeds but returns a byte
other than 0x68, `FlightController.new` returns the identity-mismatch error
and issues no further bus writes: the trace gains only the WhoAmI write and
read, and the remaining script is untouched. -/
theorem fc_new_identity_mismatch {E : Type} (b : Nat)
    (rest : List (BusResp E)) (t : List BusEvent) (hb : b ≠ 0x68) :
    FlightController.new
        ⟨BusResp.write (Except.ok ()) :: BusResp.read [b] (Except.ok ()) :: rest, t⟩ =
      some (Except.error FCError.identityMismatch,
        ⟨rest, t ++ [BusEvent.write [0x75], BusEvent.read 1]⟩) := by
  simp [FlightController.new, read_reg, Bus.doWrite, Bus.doRead, hb]

/-- Witness for C3 at a concrete mismatching identity byte. -/
theorem fc_new_identity_mismatch_witness :
    (0x69 : Nat) ≠ 0x68 ∧
    FlightController.new (E := Unit)
        ⟨[BusResp.write (Except.ok ()), BusResp.read [0x69] (Except.ok ())], []⟩ =
      some (Except.error FCError.identityMismatch,
        ⟨[], [BusEvent.write [0x75], BusEvent.read 1]⟩) :=
  ⟨by decide, fc_new_identity_mismatch 0x69 [] [] (by decide)⟩

/-- Claim C4: after a successful identity check, `FlightController.new`
issues exactly two further bus writes in order, `[0x6b, 0x00]` then
`[0x19, 199, 0x06, 0x00, 0x00]`, each as one bus write call; if either
write fails, it aborts with that transport error (second write not issued
when the first fails, no controller constructed). -/
theorem fc_new_config_writes {E : Type} (e1 e2 : E)
    (rest1 rest2 rest3 : List (BusResp E)) (t : List BusEvent) :
    FlightController.new
        ⟨BusResp.write (Except.ok ()) :: BusResp.read [0x68] (Except.ok ()) ::
          BusResp.write (Except.ok ()) :: BusResp.write (Except.ok ()) :: rest1, t⟩ =
      some (Except.ok ⟨⟨rest1, t ++ [BusEvent.write [0x75], BusEvent.read 1,
            BusEvent.write [0x6b, 0x00], BusEvent.write [0x19, 199, 0x06, 0x00, 0x00]]⟩⟩,
        ⟨rest1, t ++ [BusEvent.write [0x75], BusEvent.read 1,
            BusEvent.write [0x6b, 0x00], BusEvent.write [0x19, 199, 0x06, 0x00, 0x00]]⟩) ∧
    FlightController.new
        ⟨BusResp.write (Except.ok ()) :: BusResp.read [0x68] (Except.ok ()) ::
          BusResp.write (Except.error e1) :: rest2, t⟩ =
      some (Except.error (FCError.transport e1),
        ⟨rest2, t ++ [BusEvent.write [0x75], BusEvent.read 1,
            BusEvent.write [0x6b, 0x00]]⟩) ∧
    FlightController.new
        ⟨BusResp.write (Except.ok ()) :: BusResp.read [0x68] (Except.ok ()) ::
          BusResp.write (Except.ok ()) :: BusResp.write (Except.error e2) :: rest3, t⟩ =
      some (Except.error (FCError.transport e2),
        ⟨rest3, t ++ [BusEvent.write [0x75], BusEvent.read 1,
            BusEvent.write [0x6b, 0x00], BusEvent.write [0x19, 199, 0x06, 0x00, 0x00]]⟩) := by
  refine ⟨?_, ?_, ?_⟩ <;>
    simp [FlightController.new, read_reg, Bus.doWrite, Bus.doRead]

/-- Claim C5: `read_sample` performs exactly one block read (one write of
`[0x3b]`, one read of 14 bytes) and decodes the buffer as seven big-endian
signed 16-bit integers in the order accel X, accel Y, accel Z, temperature,
gyro X, gyro Y, gyro Z, with conversions raw/16384, raw/340 + 35, raw/131. -/
theorem read_sample_spec {E : Type}
    (b0 b1 b2 b3 b4 b5 b6 b7 b8 b9 b10 b11 b12 b13 : Nat)
    (rest : List (BusResp E)) (t : List BusEvent) :
    FlightController.read_sample
        ⟨⟨BusResp.write (Except.ok ()) ::
          BusResp.read [b0, b1, b2, b3, b4, b5, b6, b7, b8, b9, b10, b11, b12, b13]
            (Except.ok ()) :: rest, t⟩⟩ =
      some (Except.ok
          { accel := [(toI16 b0 b1 : ℚ) / 16384, (toI16 b2 b3 : ℚ) / 16384,
                      (toI16 b4 b5 : ℚ) / 16384],
            temp := (toI16 b6 b7 : ℚ) / 340 + 35,
            gyro := [(toI16 b8 b9 : ℚ) / 131, (toI16 b10 b11 : ℚ) / 131,
                     (toI16 b12 b13 : ℚ) / 131] },
        ⟨⟨rest, t ++ [BusEvent.write [0x3b], BusEvent.read 14]⟩⟩) := by
  simp [FlightController.read_sample, read_reg, Bus.doWrite, Bus.doRead, decodeMPU, readI16BE]

/-- Claim C6: on the fixed 14-byte buffer 0x10 0x00 0x00 ... 0x00 the
decoded sample has acceleration X = 1/4 g, temperature = 35 Celsius, and
all other components zero. -/
theorem read_sample_example :
    FlightController.read_sample (E := Unit)
        ⟨⟨[BusResp.write (Except.ok ()),
           BusResp.read [0x10, 0x00, 0x00, 0x00, 0x00, 0x00, 0x00,
                         0x00, 0x00, 0x00, 0x00, 0x00, 0x00, 0x00] (Except.ok ())], []⟩⟩ =
      some (Except.ok { accel := [1 / 4, 0, 0], temp := 35, gyro := [0, 0, 0] },
        ⟨⟨[], [BusEvent.write [0x3b], BusEvent.read 14]⟩⟩) := by
  simp [FlightController.read_sample, read_reg, Bus.doWrite, Bus.doRead,
    decodeMPU, readI16BE, toI16]
  norm_num

theorem readI16BE_total (l : List Nat) (h : 2 ≤ l.length) :
    ∃ v rest, readI16BE l = some (v, rest) ∧ rest.length = l.length - 2 := by
  rcases l with _ | ⟨hi, l⟩
  · exact absurd h (by decide)
  · rcases l with _ | ⟨lo, rest⟩
    · simp at h
    · exact ⟨toI16 hi lo, rest, rfl, by simp⟩

theorem decodeMPU_total (buf : List Nat) (h : buf.length = 14) :
    (decodeMPU buf).isSome = true := by
  obtain ⟨ax, b1, h1, l1⟩ := readI16BE_total buf (by omega)
  obtain ⟨ay, b2, h2, l2⟩ := readI16BE_total b1 (by omega)
  obtain ⟨az, b3, h3, l3⟩ := readI16BE_total b2 (by omega)
  obtain ⟨tp, b4, h4, l4⟩ := readI16BE_total b3 (by omega)
  obtain ⟨gx, b5, h5, l5⟩ := readI16BE_total b4 (by omega)
  obtain ⟨gy, b6, h6, l6⟩ := readI16BE_total b5 (by omega)
  obtain ⟨gz, b7, h7, l7⟩ := readI16BE_total b6 (by omega)
  simp [decodeMPU, h1, h2, h3, h4, h5, h6, h7]

/-- Claim C9: the decode phase never fails on a 14-byte buffer, so
`read_sample` returns an error exactly when the underlying bus write or
bus read of the block read fails, and that error is the transport error. -/
theorem read_sample_err_iff_bus_err {E : Type} :
    (∀ buf : List Nat, buf.length = 14 → (decodeMPU buf).isSome = true) ∧
    (∀ (e : E) (rest : List (BusResp E)) (t : List BusEvent),
      FlightController.read_sample ⟨⟨BusResp.write (Except.error e) :: rest, t⟩⟩ =
        some (Except.error (FCError.transport e),
          ⟨⟨rest, t ++ [BusEvent.write [0x3b]]⟩⟩)) ∧
    (∀ (data : List Nat) (e : E) (rest : List (BusResp E)) (t : List BusEvent),
      data.length = 14 →
      FlightController.read_sample
          ⟨⟨BusResp.write (Except.ok ()) :: BusResp.read data (Except.error e) :: rest, t⟩⟩ =
        some (Except.error (FCError.transport e),
          ⟨⟨rest, t ++ [BusEvent.write [0x3b], BusEvent.read 14]⟩⟩)) ∧
    (∀ (data : List Nat) (rest : List (BusResp E)) (t : List BusEvent),
      data.length = 14 →
      (FlightController.read_sample
          ⟨⟨BusResp.write (Except.ok ()) :: BusResp.read data (Except.ok ()) :: rest, t⟩⟩).map
          (fun p => match p.1 with | Except.ok _ => true | Except.error _ => false) =
        some true) := by
  refine ⟨fun buf h => decodeMPU_total buf h, ?_, ?_, ?_⟩
  · intro e rest t
    simp [FlightController.read_sample, read_reg, Bus.doWrite]
  · intro data e rest t h
    simp [FlightController.read_sample, read_reg, Bus.doWrite, Bus.doRead, h]
  · intro data rest t h
    have htot := decodeMPU_total data h
    cases hd : decodeMPU data with
    | none => rw [hd] at htot; simp at htot
    | some s =>
        simp [FlightController.read_sample, read_reg, Bus.doWrite, Bus.doRead, h, hd]

/-- Witness for C9: the decode-totality part applied to the all-zero
14-byte buffer, and the ok case applied on a concrete bus. -/
theorem read_sample_err_iff_bus_err_witness :
    (List.replicate 14 0).length = 14 ∧
    (decodeMPU (List.replicate 14 0)).isSome = true ∧
    (FlightController.read_sample (E := Unit)
        ⟨⟨[BusResp.write (Except.ok ()),
           BusResp.read (List.replicate 14 0) (Except.ok ())], []⟩⟩).map
        (fun p => match p.1 with | Except.ok _ => true | Except.error _ => false) =
      some true :=
  ⟨by decide,
   (read_sample_err_iff_bus_err (E := Unit)).1 (List.replicate 14 0) (by decide),
   (read_sample_err_iff_bus_err (E := Unit)).2.2.2 (List.replicate 14 0) [] [] (by decide)⟩

/-- src/accel.rs `RawAccelData`: an opaque u64 payload. -/
structure RawAccelData where
  val : Nat
deriving DecidableEq

/-- src/accel.rs `ProcessedAccelData`: an opaque u64 payload. -/
structure ProcessedAccelData where
  val : Nat
deriving DecidableEq

/-- src/gyro.rs `RawGyroData`: an opaque u64 payload. -/
structure RawGyroData where
  val : Nat
deriving DecidableEq

/-- src/gyro.rs `ProcessedGyroData`: an opaque u64 payload. -/
structure ProcessedGyroData where
  val : Nat
deriving DecidableEq

/-- src/mag.rs `RawMagData`: an opaque u64 payload. -/
structure RawMagData where
  val : Nat
deriving DecidableEq

/-- src/mag.rs `ProcessedMagData`: an opaque u64 payload. -/
structure ProcessedMagData where
  val : Nat
deriving DecidableEq

/-- src/accel.rs `AccelActor::process`: pull one raw sample from the
source, build `ProcessedAccelData(raw.0)`, push it to the sink.  The
source is the list of raw samples still to be produced, the sink the list
of processed samples delivered so far; `none` models the crash of
`recv().unwrap()` when the source is exhausted. -/
def AccelActor.process (source : List RawAccelData) (sink : List ProcessedAccelData) :
    Option (List RawAccelData × List ProcessedAccelData) :=
  match source with
  | raw :: rest => some (rest, sink ++ [ProcessedAccelData.mk raw.val])
  | [] => none

/-- src/accel.rs `AccelActor::run`, cut off after a given number of loop
iterations (the source loop never exits on its own). -/
def AccelActor.runSteps : Nat → List RawAccelData → List ProcessedAccelData →
    Option (List RawAccelData × List ProcessedAccelData)
  | 0, source, sink => some (source, sink)
  | Nat.succ k, source, sink =>
    match AccelActor.process source sink with
    | none => none
    | some (source1, sink1) => AccelActor.runSteps k source1 sink1

/-- src/gyro.rs `GyroActor::process`: identical shape to the accel actor. -/
def GyroActor.process (source : List RawGyroData) (sink : List ProcessedGyroData) :
    Option (List RawGyroData × List ProcessedGyroData) :=
  match source with
  | raw :: rest => some (rest, sink ++ [ProcessedGyroData.mk raw.val])
  | [] => none

/-- src/gyro.rs `GyroActor::run`, cut off after a given number of loop
iterations. -/
def GyroActor.runSteps : Nat → List RawGyroData → List ProcessedGyroData →
    Option (List RawGyroData × List ProcessedGyroData)
  | 0, source, sink => some (source, sink)
  | Nat.succ k, source, sink =>
    match GyroActor.process source sink with
    | none => none
    | some (source1, sink1) => GyroActor.runSteps k source1 sink1

theorem accel_runSteps_spec (raws : List RawAccelData) (sink : List ProcessedAccelData) :
    AccelActor.runSteps raws.length raws sink =
      some ([], sink ++ raws.map fun r => ProcessedAccelData.mk r.val) := by
  induction raws generalizing sink with
  | nil => simp [AccelActor.runSteps]
  | cons r rs ih =>
      simp [AccelActor.runSteps, AccelActor.process, ih]

theorem gyro_runSteps_spec (raws : List RawGyroData) (sink : List ProcessedGyroData) :
    GyroActor.runSteps raws.length raws sink =
      some ([], sink ++ raws.map fun r => ProcessedGyroData.mk r.val) := by
  induction raws generalizing sink with
  | nil => simp [GyroActor.runSteps]
  | cons r rs ih =>
      simp [GyroActor.runSteps, GyroActor.process, ih]

/-- Claim C7: fed a scripted source of k raw samples, a per-sensor actor
delivers exactly k processed samples to its sink, in order, each carrying
exactly the payload of the raw sample it came from (the baseline identity
transform), with no loss, duplication or reordering — for the accel actor
and the gyro actor alike. -/
theorem actor_process_identity :
    (∀ raws : List RawAccelData,
      AccelActor.runSteps raws.length raws [] =
        some ([], raws.map fun r => ProcessedAccelData.mk r.val)) ∧
    (∀ raws : List RawGyroData,
      GyroActor.runSteps raws.length raws [] =
        some ([], raws.map fun r => ProcessedGyroData.mk r.val)) := by
  constructor
  · intro raws
    simpa using accel_runSteps_spec raws []
  · intro raws
    simpa using gyro_runSteps_spec raws []

/-- src/fusion.rs `SensorInput`: the discriminated union over the three
processed sample kinds. -/
inductive SensorInput where
  | accel (data : ProcessedAccelData)
  | gyro (data : ProcessedGyroData)
  | mag (data : ProcessedMagData)
deriving DecidableEq

/-- src/fusion.rs `FusedSensorOutput`: the struct has no fields yet
("Whatever fused output looks like..."). -/
structure FusedSensorOutput where
deriving DecidableEq

instance : Inhabited FusedSensorOutput := ⟨⟨⟩⟩

/-- src/fusion.rs `FusedSensorOutput::join`: the baseline fold step,
which ignores the input and returns `self` unchanged. -/
def FusedSensorOutput.join (self : FusedSensorOutput) (_more_input : SensorInput) :
    FusedSensorOutput :=
  self

/-- src/fusion.rs `SensorFusionActor::process`: receive one input, fold it
into the accumulator, send the updated accumulator to the sink, and return
it as the new loop state.  The source is the list of inputs the fan-in
channel will deliver, in delivery order; the sink is the list of outputs
delivered downstream so far. -/
def SensorFusionActor.process (data : FusedSensorOutput) (source : List SensorInput)
    (sink : List FusedSensorOutput) :
    Option (FusedSensorOutput × List SensorInput × List FusedSensorOutput) :=
  match source with
  | input :: rest =>
      let fused := data.join input
      some (fused, rest, sink ++ [fused])
  | [] => none

/-- src/fusion.rs `SensorFusionActor::run`, cut off after a given number of
loop iterations, starting from the given accumulator. -/
def SensorFusionActor.runSteps : Nat → FusedSensorOutput → List SensorInput →
    List FusedSensorOutput →
    Option (FusedSensorOutput × List SensorInput × List FusedSensorOutput)
  | 0, data, source, sink => some (data, source, sink)
  | Nat.succ k, data, source, sink =>
    match SensorFusionActor.process data source sink with
    | none => none
    | some (data1, source1, sink1) => SensorFusionActor.runSteps k data1 source1 sink1

/-- The fold-prefix sequence the spec describes: the i-th element is the
accumulator after folding the first i+1 inputs. -/
def foldOutputs (acc : FusedSensorOutput) : List SensorInput → List FusedSensorOutput
  | [] => []
  | i :: rest =>
      let acc1 := acc.join i
      acc1 :: foldOutputs acc1 rest

theorem foldOutputs_length (acc : FusedSensorOutput) (inputs : List SensorInput) :
    (foldOutputs acc inputs).length = inputs.length := by
  induction inputs generalizing acc with
  | nil => rfl
  | cons i rest ih => simp [foldOutputs, ih]

theorem fusion_runSteps_spec (acc : FusedSensorOutput) (inputs : List SensorInput)
    (sink : List FusedSensorOutput) :
    SensorFusionActor.runSteps inputs.length acc inputs sink =
      some (List.foldl FusedSensorOutput.join acc inputs, [], sink ++ foldOutputs acc inputs) := by
  induction inputs generalizing acc sink with
  | nil => simp [SensorFusionActor.runSteps, foldOutputs]
  | cons i rest ih =>
      simp [SensorFusionActor.runSteps, SensorFusionActor.process, foldOutputs, ih]

theorem foldOutputs_get (acc : FusedSensorOutput) (inputs : List SensorInput)
    (i : Nat) (h : i < (foldOutputs acc inputs).length) :
    (foldOutputs acc inputs).get ⟨i, h⟩ =
      List.foldl FusedSensorOutput.join acc (inputs.take (i + 1)) := by
  induction inputs generalizing acc i with
  | nil => simp [foldOutputs] at h
  | cons a rest ih =>
      cases i with
      | zero => simp [foldOutputs]
      | succ j =>
          have h2 : j < (foldOutputs (acc.join a) rest).length := by
            simpa [foldOutputs] using h
          exact ih (acc.join a) j h2

/-- Claim C8: over a delivery sequence of n inputs, the fusion actor
delivers exactly n outputs, the i-th being the left fold of the first i+1
inputs starting from the identity accumulator, and the final loop state is
the fold of all of them. -/
theorem fusion_fold_sequence (inputs : List SensorInput) :
    SensorFusionActor.runSteps inputs.length default inputs [] =
      some (List.foldl FusedSensorOutput.join default inputs, [],
        foldOutputs default inputs) ∧
    (foldOutputs default inputs).length = inputs.length ∧
    ∀ (i : Nat) (h : i < (foldOutputs default inputs).length),
      (foldOutputs default inputs).get ⟨i, h⟩ =
        List.foldl FusedSensorOutput.join default (inputs.take (i + 1)) := by
  refine ⟨?_, foldOutputs_length default inputs, fun i h => foldOutputs_get default inputs i h⟩
  simpa using fusion_runSteps_spec default inputs []

/-- Witness for C8 on a concrete two-element input sequence, index 0. -/
theorem fusion_fold_sequence_witness :
    (0 : Nat) <
      (foldOutputs default [SensorInput.accel ⟨1⟩, SensorInput.gyro ⟨2⟩]).length ∧
    (foldOutputs default [SensorInput.accel ⟨1⟩, SensorInput.gyro ⟨2⟩]).get
        ⟨0, by decide⟩ =
      List.foldl FusedSensorOutput.join default
        ([SensorInput.accel ⟨1⟩, SensorInput.gyro ⟨2⟩].take 1) :=
  ⟨by decide,
   (fusion_fold_sequence [SensorInput.accel ⟨1⟩, SensorInput.gyro ⟨2⟩]).2.2 0 (by decide)⟩

theorem foldl_join_default (inputs : List SensorInput) :
    List.foldl FusedSensorOutput.join default inputs = default := by
  induction inputs with
  | nil => rfl
  | cons a rest ih => exact ih

theorem foldOutputs_replicate (acc : FusedSensorOutput) (l : List SensorInput) :
    foldOutputs acc l = List.replicate l.length acc := by
  induction l generalizing acc with
  | nil => rfl
  | cons a rest ih => simp [foldOutputs, FusedSensorOutput.join, ih, List.replicate]

/-- Claim C10: the baseline fold is the identity on the accumulator, so the
fusion actor delivers to its sink a run of outputs all equal to the default
`FusedSensorOutput`, one per input, whatever the inputs were. -/
theorem fused_join_identity :
    (∀ (a : FusedSensorOutput) (i : SensorInput), a.join i = a) ∧
    ∀ inputs : List SensorInput,
      SensorFusionActor.runSteps inputs.length default inputs [] =
        some (default, [], List.replicate inputs.length default) := by
  constructor
  · intro a i
    rfl
  · intro inputs
    have hrun := fusion_runSteps_spec default inputs []
    rw [foldl_join_default, foldOutputs_replicate] at hrun
    simpa using hrun
